import Mathlib

/-!
Verification development for the `memo` repository, a collection of
standalone Python teaching snippets.  The files modelled here are:

* `src/tterraform/lambda_function.py` — an AWS Lambda / SQS batch handler;
* `src/python/threads.py` — threading demos (thread pool, locked counter);
* `src/python/async.py` — asyncio demos (timeout example `main4`);
* `src/python/oop.py` — `CachedGadget` instance-caching via `__new__`;
* `src/python/oop/class5.py` — `TimestampMixin` / `SoftDeleteMixin` mixins;
* `src/python/oop/class2.py` — `RichExample` pickling hooks.

Python runtime values are embedded as the inductive `PyVal`; fallible
Python code is embedded as `Except String _` where the `String` is the
exception's `str(e)` rendering.
-/

namespace Memo

/-- A Python value as it can appear in a decoded JSON document or an AWS
event: `None`, booleans, integers, strings, lists and string-keyed dicts. -/
inductive PyVal : Type where
  | none : PyVal
  | bool : Bool → PyVal
  | int : Int → PyVal
  | str : String → PyVal
  | list : List PyVal → PyVal
  | dict : List (String × PyVal) → PyVal

/-- A short descriptive name for the runtime type of a `PyVal`, used in
exception messages. -/
def PyVal.typeName : PyVal → String
  | .none => "NoneType"
  | .bool _ => "bool"
  | .int _ => "int"
  | .str _ => "str"
  | .list _ => "list"
  | .dict _ => "dict"

/-- First-match lookup in a Python dict modelled as an association list. -/
def dictGet (kvs : List (String × PyVal)) (key : String) : Option PyVal :=
  match kvs with
  | [] => Option.none
  | (k, v) :: rest => if k = key then Option.some v else dictGet rest key

/-- `obj[key]` for a string `key`: dict lookup raising `KeyError` on a
missing key, `TypeError` on values that do not support string subscripts. -/
def getItem (v : PyVal) (key : String) : Except String PyVal :=
  match v with
  | .dict kvs =>
      match dictGet kvs key with
      | Option.some x => Except.ok x
      | Option.none => Except.error ("KeyError: " ++ key)
  | .list _ => Except.error "TypeError: list indices must be integers or slices, not str"
  | .str _ => Except.error "TypeError: string indices must be integers"
  | other => Except.error ("TypeError: " ++ other.typeName ++ " object is not subscriptable")

/-- Python `==` against a string constant: true only for an equal `str`. -/
def isStrEq (v : PyVal) (key : String) : Bool :=
  match v with
  | .str s => s = key
  | _ => false

/-- Python `key in v` for a string `key`: key membership for dicts,
substring test for strings, element equality for lists, `TypeError`
otherwise. -/
def pyContains (v : PyVal) (key : String) : Except String Bool :=
  match v with
  | .dict kvs => Except.ok (kvs.any (fun kv => kv.1 = key))
  | .str s => Except.ok (decide (key.toList <:+: s.toList))
  | .list xs => Except.ok (xs.any (fun x => isStrEq x key))
  | other => Except.error ("TypeError: argument of type " ++ other.typeName ++ " is not iterable")

/-- Python iteration `for x in v`: a list yields its elements, a dict its
keys, a string its one-character substrings; other values raise
`TypeError`. -/
def asList (v : PyVal) : Except String (List PyVal) :=
  match v with
  | .list xs => Except.ok xs
  | .dict kvs => Except.ok (kvs.map (fun kv => PyVal.str kv.1))
  | .str s => Except.ok (s.toList.map (fun c => PyVal.str (String.singleton c)))
  | other => Except.error ("TypeError: " ++ other.typeName ++ " object is not iterable")

/-- Escape one character in JSON string encoding. -/
def jsonEscapeChar (c : Char) : String :=
  if c = '\\' then "\\\\" else if c = '"' then "\\\"" else String.singleton c

/-- `json.dumps` applied to a Python string: the quoted, escaped form. -/
def jsonDumpsStr (s : String) : String :=
  "\"" ++ String.join (s.toList.map jsonEscapeChar) ++ "\""

/-- `json.loads` requires `str` input (`TypeError` otherwise); the actual
parse is performed by the ambient decoder the handler is parameterised
over. -/
def asJsonInput (v : PyVal) : Except String String :=
  match v with
  | .str s => Except.ok s
  | other =>
      Except.error ("TypeError: the JSON object must be str, bytes or bytearray, not "
        ++ other.typeName)

/-- The Lambda handler's response shape: a status code and a body. -/
structure Response where
  statusCode : Nat
  body : String
deriving DecidableEq, Repr

/-- `process_message` from `src/tterraform/lambda_function.py`: prints the
message, then prints the `task` and `data` entries when present.  Each
`if key in message:` test and each `message[key]` access inside the print
can raise. -/
def process_message (message : PyVal) : Except String Unit := do
  let hasTask ← pyContains message "task"
  if hasTask then
    let _ ← getItem message "task"
    pure ()
  let hasData ← pyContains message "data"
  if hasData then
    let _ ← getItem message "data"
    pure ()
  pure ()

/-- The per-record work in the handler's loop: read `messageId`, read and
JSON-decode `body`, then `process_message` the decoded value.  `loads` is
the `json.loads` parser, over whose behaviour the theorems quantify. -/
def processRecord (loads : String → Except String PyVal) (record : PyVal) :
    Except String Unit := do
  let _messageId ← getItem record "messageId"
  let bodyVal ← getItem record "body"
  let bodyStr ← asJsonInput bodyVal
  let body ← loads bodyStr
  process_message body

/-- The handler's loop over the SQS batch. -/
def processRecords (loads : String → Except String PyVal) :
    List PyVal → Except String Unit
  | [] => Except.ok ()
  | r :: rs => do
      processRecord loads r
      processRecords loads rs

/-- The body of the handler's `try:` block: fetch `event['Records']`,
iterate it, process each record. -/
def handlerTryBody (loads : String → Except String PyVal) (event : PyVal) :
    Except String Unit := do
  let records ← getItem event "Records"
  let recs ← asList records
  processRecords loads recs

/-- `handler` from `src/tterraform/lambda_function.py`: runs the batch
loop; on success returns status 200 with the JSON-encoded success
message, and on any exception `e` returns status 500 with the
JSON-encoded `"Error: " ++ str(e)` body. -/
def handler (loads : String → Except String PyVal) (event : PyVal) : Response :=
  match handlerTryBody loads event with
  | Except.ok _ =>
      { statusCode := 200, body := jsonDumpsStr "Messages processed successfully" }
  | Except.error e =>
      { statusCode := 500, body := jsonDumpsStr ("Error: " ++ e) }

end Memo

namespace Memo

/-- The handler as the spec's words for C4 describe it: a plain
call-through of the batch loop with no try/except of its own, so any
exception propagates to the caller.  Modelled from the spec sentence
"the snippet is a thin call-through to that library's documented API with
no additional logic, error handling, or abstraction layered on top". -/
def handlerNoCatch (loads : String → Except String PyVal) (event : PyVal) :
    Except String Response := do
  handlerTryBody loads event
  pure { statusCode := 200, body := jsonDumpsStr "Messages processed successfully" }

/-- A concrete `json.loads` stand-in used by the closed witnesses: it
decodes the two-character text of an empty JSON object and rejects
everything else. -/
def jloads0 : String → Except String PyVal := fun s =>
  if s = "\x7b\x7d" then Except.ok (PyVal.dict [])
  else Except.error "JSONDecodeError: Expecting value"

/-- A concrete well-shaped SQS record: a `messageId` and an
empty-JSON-object `body`. -/
def rec0 : PyVal :=
  PyVal.dict [("messageId", PyVal.str "m1"), ("body", PyVal.str "\x7b\x7d")]

/-- The key/value list of a concrete well-shaped event holding `rec0`. -/
def ev200kvs : List (String × PyVal) := [("Records", PyVal.list [rec0])]

/-- A concrete well-shaped event. -/
def ev200 : PyVal := PyVal.dict ev200kvs

end Memo

namespace Memo

/-- C1: for every decoder behaviour and every event value the handler
returns a flat status object and never propagates an exception: if the
try-block raises any exception `e` it returns status 500 with the
JSON-encoded `Error: e` body, and if no record raises it returns status
200 with the JSON-encoded success message; every result is one of these
two shapes, so no retry or partial-failure result is ever produced. -/
theorem handler_never_raises (loads : String → Except String PyVal) (event : PyVal) :
    (handlerTryBody loads event = Except.ok () →
      handler loads event =
        { statusCode := 200, body := jsonDumpsStr "Messages processed successfully" }) ∧
    (∀ e, handlerTryBody loads event = Except.error e →
      handler loads event =
        { statusCode := 500, body := jsonDumpsStr ("Error: " ++ e) }) ∧
    (handler loads event =
        { statusCode := 200, body := jsonDumpsStr "Messages processed successfully" } ∨
      ∃ e, handler loads event =
        { statusCode := 500, body := jsonDumpsStr ("Error: " ++ e) }) := by
  cases h : handlerTryBody loads event with
  | ok u =>
      refine ⟨?_, ?_, ?_⟩
      · intro _
        simp [handler, h]
      · intro e he
        exact nomatch he
      · exact Or.inl (by simp [handler, h])
  | error e =>
      refine ⟨?_, ?_, ?_⟩
      · intro hok
        exact nomatch hok
      · intro e2 he2
        injection he2 with hh
        subst hh
        simp [handler, h]
      · exact Or.inr ⟨e, by simp [handler, h]⟩

/-- C1 witness: at the concrete decoder `jloads0` and well-shaped event
`ev200` the first conjunct applies and yields the 200 response. -/
theorem handler_never_raises_witness :
    handler jloads0 ev200 =
      { statusCode := 200, body := jsonDumpsStr "Messages processed successfully" } :=
  (handler_never_raises jloads0 ev200).1 rfl

end Memo

namespace Memo

/-- A record whose `messageId` and `body` lookups succeed, whose body is a
string that `loads` decodes, and whose decoded value `process_message`
accepts, is processed without an exception. -/
theorem processRecord_ok (loads : String → Except String PyVal) (r : PyVal)
    (mid body : PyVal) (bodyStr : String)
    (h1 : getItem r "messageId" = Except.ok mid)
    (h2 : getItem r "body" = Except.ok (PyVal.str bodyStr))
    (h3 : loads bodyStr = Except.ok body)
    (h4 : process_message body = Except.ok ()) :
    processRecord loads r = Except.ok () := by
  rw [processRecord, h1, h2]
  show (do
    let bodyStr2 ← asJsonInput (PyVal.str bodyStr)
    let body ← loads bodyStr2
    process_message body : Except String Unit) = Except.ok ()
  rw [asJsonInput]
  show (do
    let body ← loads bodyStr
    process_message body : Except String Unit) = Except.ok ()
  rw [h3]
  show process_message body = Except.ok ()
  exact h4

/-- The batch loop succeeds when every record is processed without an
exception. -/
theorem processRecords_ok (loads : String → Except String PyVal) (recs : List PyVal)
    (h : ∀ r ∈ recs, processRecord loads r = Except.ok ()) :
    processRecords loads recs = Except.ok () := by
  induction recs with
  | nil => rfl
  | cons r rs ih =>
      have hr : processRecord loads r = Except.ok () := h r (List.mem_cons_self r rs)
      have hrs : processRecords loads rs = Except.ok () :=
        ih (fun x hx => h x (List.mem_cons_of_mem r hx))
      show (do
        processRecord loads r
        processRecords loads rs : Except String Unit) = Except.ok ()
      rw [hr]
      show processRecords loads rs = Except.ok ()
      exact hrs

/-- C2: for every event shaped as the implicit contract requires — a dict
whose `Records` key holds a list of records, each record with a
`messageId` and a string `body` that JSON-decodes to a value that
`process_message` accepts — the handler returns exactly statusCode 200
with the JSON-encoded success message. -/
theorem handler_wellshaped_event_ok (loads : String → Except String PyVal)
    (kvs : List (String × PyVal)) (recs : List PyVal)
    (hrecords : dictGet kvs "Records" = Option.some (PyVal.list recs))
    (hrec : ∀ r ∈ recs, ∃ mid bodyStr body,
      getItem r "messageId" = Except.ok mid ∧
      getItem r "body" = Except.ok (PyVal.str bodyStr) ∧
      loads bodyStr = Except.ok body ∧
      process_message body = Except.ok ()) :
    handler loads (PyVal.dict kvs) =
      { statusCode := 200, body := jsonDumpsStr "Messages processed successfully" } := by
  have hall : ∀ r ∈ recs, processRecord loads r = Except.ok () := by
    intro r hr
    obtain ⟨mid, bodyStr, body, h1, h2, h3, h4⟩ := hrec r hr
    exact processRecord_ok loads r mid body bodyStr h1 h2 h3 h4
  have hget : getItem (PyVal.dict kvs) "Records" = Except.ok (PyVal.list recs) := by
    simp [getItem, hrecords]
  have hbody : handlerTryBody loads (PyVal.dict kvs) = Except.ok () := by
    rw [handlerTryBody, hget]
    show (do
      let recs2 ← asList (PyVal.list recs)
      processRecords loads recs2 : Except String Unit) = Except.ok ()
    rw [asList]
    show processRecords loads recs = Except.ok ()
    exact processRecords_ok loads recs hall
  simp [handler, hbody]

/-- C2 witness: the concrete well-shaped event `ev200` under the concrete
decoder `jloads0` yields the 200 success response. -/
theorem handler_wellshaped_event_ok_witness :
    handler jloads0 ev200 =
      { statusCode := 200, body := jsonDumpsStr "Messages processed successfully" } :=
  handler_wellshaped_event_ok jloads0 ev200kvs [rec0] rfl (by
    intro r hr
    rw [List.mem_singleton] at hr
    subst hr
    exact ⟨PyVal.str "m1", "\x7b\x7d", PyVal.dict [], rfl, rfl, rfl, rfl⟩)

end Memo

namespace Memo

/-- C4 amended: the handler is the plain call-through of the batch loop
composed with exactly one generic exception handler — every exception of
the call-through is converted to the 500 status response, and nothing
else (no retry, no abstraction) is added. -/
theorem handler_refines_call_through (loads : String → Except String PyVal)
    (event : PyVal) :
    handler loads event =
      match handlerNoCatch loads event with
      | Except.ok r => r
      | Except.error e => { statusCode := 500, body := jsonDumpsStr ("Error: " ++ e) } := by
  cases h : handlerTryBody loads event with
  | ok u =>
      cases u
      simp [handler, handlerNoCatch, h]
  | error e =>
      simp [handler, handlerNoCatch, h]

/-- C4 counterexample: on the event `0` (an int, so `event['Records']`
raises `TypeError`) the plain call-through described by the spec
propagates the exception, while the actual handler catches it and returns
a 500 status response — the snippet does contain error handling of its
own. -/
theorem handler_own_catch_counterexample :
    handlerNoCatch jloads0 (PyVal.int 0) =
      Except.error "TypeError: int object is not subscriptable" ∧
    handler jloads0 (PyVal.int 0) =
      { statusCode := 500,
        body := jsonDumpsStr "Error: TypeError: int object is not subscriptable" } :=
  ⟨rfl, rfl⟩

end Memo

namespace Memo

/-- The global names of `src/python/threads.py` that are bound before
line 8 runs, i.e. at the moment the example-6 thread pool first calls
`square`: the two names imported from `concurrent.futures` on line 2 and
`square` itself (lines 4-6).  `import time` only executes at line 19,
after examples 6 and 7 have already run. -/
def threadsNamesBeforeExample6 : List String :=
  ["ThreadPoolExecutor", "as_completed", "square"]

/-- A call to `square` under Python's late-binding global-name
resolution: the body `time.sleep(0.5); return n * n` first resolves the
global name `time` and raises `NameError` when it is not (yet) bound. -/
def squareCall (env : List String) (n : Int) : Except String Int :=
  if "time" ∈ env then Except.ok (n * n)
  else Except.error "NameError: name time is not defined"

/-- C3: running `src/python/threads.py` in isolation does not reach the
end — `square` is first called (via the line-8 thread pool) while the
global `time` is still unbound, so the call raises `NameError`; once
`time` is bound (any environment extending line 19) every call returns
`n * n`. -/
theorem threads_square_name_error :
    threadsNamesBeforeExample6.contains "time" = false ∧
    squareCall threadsNamesBeforeExample6 0 =
      Except.error "NameError: name time is not defined" ∧
    (∀ n : Int, squareCall ("time" :: threadsNamesBeforeExample6) n = Except.ok (n * n)) :=
  ⟨by decide, rfl, fun n => by simp [squareCall]⟩

end Memo

namespace Memo

/-- `long_task` from `src/python/async.py`: sleeps for 2 seconds, then
returns the string `done`; embedded as its duration paired with its
result. -/
def long_task : Nat × String := (2, "done")

/-- `asyncio.wait_for`: awaiting a task under a timeout raises
`asyncio.TimeoutError` when the timeout elapses before the task has
completed, and yields the task's result otherwise. -/
def wait_for (t : Nat × String) (timeout : Nat) : Except String String :=
  if timeout < t.1 then Except.error "TimeoutError" else Except.ok t.2

/-- `main4` from `src/python/async.py`: awaits `long_task` under
`wait_for` with `timeout=1`; the `except asyncio.TimeoutError:` branch
prints `Timeout!` and the `else:` branch prints the result.  The value
is the list of printed lines. -/
def main4 : List String :=
  match wait_for long_task 1 with
  | Except.error _ => ["Timeout!"]
  | Except.ok r => ["Result: " ++ r]

/-- C5: awaiting `long_task` (2-second sleep, result `done`) under a
1-second timeout raises `TimeoutError`; `main4` catches it and prints
exactly `Timeout!`, never the `else` (result) line. -/
theorem main4_timeout :
    wait_for long_task 1 = Except.error "TimeoutError" ∧ main4 = ["Timeout!"] :=
  ⟨rfl, rfl⟩

/-- `list(executor.map(f, xs))`: the pool applies `f` to each input and
the results are yielded in input order; iterating them (as `list(...)`
does) re-raises the first exception any call raised. -/
def executorMapE (f : Int → Except String Int) : List Int → Except String (List Int)
  | [] => Except.ok []
  | x :: rest => do
      let y ← f x
      let ys ← executorMapE f rest
      pure (y :: ys)

/-- `range(5, 10)`. -/
def rangeFiveToTen : List Int := [5, 6, 7, 8, 9]

/-- C6: at its call site (line 15 of `src/python/threads.py`) the
example-7 pool maps `square` over `range(5, 10)` while the global `time`
is still unbound, so the first call raises `NameError` and the mapped
list is never produced; in the intended scope, with `time` bound (after
line 19's import), the map yields exactly `[25, 36, 49, 64, 81]` in
input order — and in every environment a `square` call either returns
`n * n` or raises that `NameError`, touching no other program state. -/
theorem threadpool_map_square_name_error :
    executorMapE (squareCall threadsNamesBeforeExample6) rangeFiveToTen
      = Except.error "NameError: name time is not defined" ∧
    executorMapE (squareCall ("time" :: threadsNamesBeforeExample6)) rangeFiveToTen
      = Except.ok [25, 36, 49, 64, 81] ∧
    (∀ (env : List String) (n : Int), squareCall env n = Except.ok (n * n) ∨
      squareCall env n = Except.error "NameError: name time is not defined") := by
  refine ⟨rfl, rfl, ?_⟩
  intro env n
  by_cases h : "time" ∈ env
  · exact Or.inl (by simp [squareCall, h])
  · exact Or.inr (by simp [squareCall, h])

end Memo

namespace Memo

/-- One scheduler step of the example-4 lock demo in
`src/python/threads.py`, acting on a state of (counter, per-thread
remaining iteration counts): the chosen thread `i`, when it still has
iterations left, acquires the lock, performs `counter += 1` and one loop
decrement, and releases the lock.  Because the lock is held across the
whole read-modify-write, the increment is a single atomic action; a
finished (or nonexistent) thread contributes nothing. -/
def lockedStep (s : Nat × List Nat) (i : Nat) : Nat × List Nat :=
  match s.2[i]? with
  | Option.some b => if b = 0 then s else (s.1 + 1, s.2.set i (b - 1))
  | Option.none => s

/-- Execute a whole interleaving: a schedule is the list of scheduler
choices of which thread runs its next locked increment. -/
def runSchedule (sched : List Nat) (s : Nat × List Nat) : Nat × List Nat :=
  sched.foldl lockedStep s

/-- The demo's initial state: `counter = 0` and ten threads that each
perform 1000 locked increments. -/
def initLockDemo : Nat × List Nat := (0, List.replicate 10 1000)

/-- Setting index `i` to `v` trades the old entry `b` for `v` in the sum. -/
theorem sum_set_of_get (l : List Nat) : ∀ (i b v : Nat), l[i]? = Option.some b →
    (l.set i v).sum + b = l.sum + v := by
  induction l with
  | nil => intro i b v h; simp at h
  | cons a l ih =>
      intro i b v h
      cases i with
      | zero =>
          simp at h
          subst h
          simp [List.set, List.sum_cons]
          omega
      | succ i =>
          simp at h
          have := ih i b v h
          simp [List.set, List.sum_cons]
          omega

/-- Writing back the value already stored at `i` is the identity. -/
theorem set_self_of_get (l : List Nat) : ∀ (i x : Nat), l[i]? = Option.some x →
    l.set i x = l := by
  induction l with
  | nil => intro i x h; simp at h
  | cons a l ih =>
      intro i x h
      cases i with
      | zero => simp at h; subst h; simp [List.set]
      | succ i => simp at h; simp [List.set, ih i x h]

/-- Reading back an index that was just written (and was in bounds). -/
theorem get_set_self (l : List Nat) : ∀ (i b v : Nat), l[i]? = Option.some b →
    (l.set i v)[i]? = Option.some v := by
  induction l with
  | nil => intro i b v h; simp at h
  | cons a l ih =>
      intro i b v h
      cases i with
      | zero => simp [List.set]
      | succ i => simp at h; simp [List.set, ih i b v h]

/-- Two writes to the same index collapse to the second. -/
theorem set_set_self (l : List Nat) : ∀ (i a b : Nat),
    (l.set i a).set i b = l.set i b := by
  induction l with
  | nil => intro i a b; simp [List.set]
  | cons x l ih =>
      intro i a b
      cases i with
      | zero => simp [List.set]
      | succ i => simp [List.set, ih i a b]

/-- Each locked increment conserves counter + total remaining work. -/
theorem lockedStep_invariant (s : Nat × List Nat) (i : Nat) :
    (lockedStep s i).1 + (lockedStep s i).2.sum = s.1 + s.2.sum := by
  cases h : s.2[i]? with
  | none => simp [lockedStep, h]
  | some b =>
      by_cases hb : b = 0
      · simp [lockedStep, h, hb]
      · have hsum := sum_set_of_get s.2 i b (b - 1) h
        simp [lockedStep, h, hb]
        omega

/-- The conservation invariant holds along every interleaving. -/
theorem runSchedule_invariant (sched : List Nat) (s : Nat × List Nat) :
    (runSchedule sched s).1 + (runSchedule sched s).2.sum = s.1 + s.2.sum := by
  induction sched generalizing s with
  | nil => rfl
  | cons i rest ih =>
      have h1 : runSchedule (i :: rest) s = runSchedule rest (lockedStep s i) := rfl
      rw [h1, ih (lockedStep s i)]
      exact lockedStep_invariant s i

/-- C7: in the mutex demo every modification of the shared counter is an
atomic locked increment, so along every interleaving in which all ten
threads run their 1000 iterations to completion (each remaining count is
0, i.e. all threads were joined) the final counter is exactly 10000. -/
theorem locked_counter_final (sched : List Nat)
    (hdone : ((runSchedule sched initLockDemo).2).all (fun b => b = 0) = true) :
    (runSchedule sched initLockDemo).1 = 10000 := by
  have hinv := runSchedule_invariant sched initLockDemo
  have hsum : ((runSchedule sched initLockDemo).2).sum = 0 := by
    apply List.sum_eq_zero
    intro x hx
    have := List.all_eq_true.mp hdone x hx
    exact of_decide_eq_true this
  have hinit : initLockDemo.1 + initLockDemo.2.sum = 10000 := by decide
  omega

/-- A schedule split into two phases runs the second phase from the state
the first phase reaches. -/
theorem runSchedule_append (a b : List Nat) (s : Nat × List Nat) :
    runSchedule (a ++ b) s = runSchedule b (runSchedule a s) :=
  List.foldl_append _ _ _ _

/-- Running thread `i`'s whole loop of `b` remaining iterations in one
uninterrupted block adds `b` to the counter and zeroes its budget. -/
theorem drain (i : Nat) : ∀ (b c : Nat) (l : List Nat), l[i]? = Option.some b →
    runSchedule (List.replicate b i) (c, l) = (c + b, l.set i 0) := by
  intro b
  induction b with
  | zero =>
      intro c l h
      simp [runSchedule, List.replicate, set_self_of_get l i 0 h]
  | succ b ih =>
      intro c l h
      have hstep : lockedStep (c, l) i = (c + 1, l.set i b) := by
        simp [lockedStep, h]
      have h1 : runSchedule (List.replicate (b + 1) i) (c, l)
          = runSchedule (List.replicate b i) (lockedStep (c, l) i) := rfl
      rw [h1, hstep, ih (c + 1) (l.set i b) (get_set_self l i (b + 1) b h)]
      rw [set_set_self]
      have : c + 1 + b = c + (b + 1) := by omega
      rw [this]

/-- The canonical complete schedule in which the ten threads run their
loops one after another, one uninterrupted block each. -/
def demoSchedule : List Nat :=
  List.replicate 1000 0 ++ List.replicate 1000 1 ++ List.replicate 1000 2 ++
  List.replicate 1000 3 ++ List.replicate 1000 4 ++ List.replicate 1000 5 ++
  List.replicate 1000 6 ++ List.replicate 1000 7 ++ List.replicate 1000 8 ++
  List.replicate 1000 9

/-- Evaluation of the canonical schedule: it completes all ten threads
and reaches counter 10000. -/
theorem lock_demo_run :
    runSchedule demoSchedule initLockDemo = (10000, List.replicate 10 0) := by
  have hinit : initLockDemo
      = (0, [1000, 1000, 1000, 1000, 1000, 1000, 1000, 1000, 1000, 1000]) := by decide
  have e0 : runSchedule (List.replicate 1000 0)
        (0, [1000, 1000, 1000, 1000, 1000, 1000, 1000, 1000, 1000, 1000])
      = (1000, [0, 1000, 1000, 1000, 1000, 1000, 1000, 1000, 1000, 1000]) := by
    rw [drain 0 1000 0 _ (by decide)]; decide
  have e1 : runSchedule (List.replicate 1000 1)
        (1000, [0, 1000, 1000, 1000, 1000, 1000, 1000, 1000, 1000, 1000])
      = (2000, [0, 0, 1000, 1000, 1000, 1000, 1000, 1000, 1000, 1000]) := by
    rw [drain 1 1000 1000 _ (by decide)]; decide
  have e2 : runSchedule (List.replicate 1000 2)
        (2000, [0, 0, 1000, 1000, 1000, 1000, 1000, 1000, 1000, 1000])
      = (3000, [0, 0, 0, 1000, 1000, 1000, 1000, 1000, 1000, 1000]) := by
    rw [drain 2 1000 2000 _ (by decide)]; decide
  have e3 : runSchedule (List.replicate 1000 3)
        (3000, [0, 0, 0, 1000, 1000, 1000, 1000, 1000, 1000, 1000])
      = (4000, [0, 0, 0, 0, 1000, 1000, 1000, 1000, 1000, 1000]) := by
    rw [drain 3 1000 3000 _ (by decide)]; decide
  have e4 : runSchedule (List.replicate 1000 4)
        (4000, [0, 0, 0, 0, 1000, 1000, 1000, 1000, 1000, 1000])
      = (5000, [0, 0, 0, 0, 0, 1000, 1000, 1000, 1000, 1000]) := by
    rw [drain 4 1000 4000 _ (by decide)]; decide
  have e5 : runSchedule (List.replicate 1000 5)
        (5000, [0, 0, 0, 0, 0, 1000, 1000, 1000, 1000, 1000])
      = (6000, [0, 0, 0, 0, 0, 0, 1000, 1000, 1000, 1000]) := by
    rw [drain 5 1000 5000 _ (by decide)]; decide
  have e6 : runSchedule (List.replicate 1000 6)
        (6000, [0, 0, 0, 0, 0, 0, 1000, 1000, 1000, 1000])
      = (7000, [0, 0, 0, 0, 0, 0, 0, 1000, 1000, 1000]) := by
    rw [drain 6 1000 6000 _ (by decide)]; decide
  have e7 : runSchedule (List.replicate 1000 7)
        (7000, [0, 0, 0, 0, 0, 0, 0, 1000, 1000, 1000])
      = (8000, [0, 0, 0, 0, 0, 0, 0, 0, 1000, 1000]) := by
    rw [drain 7 1000 7000 _ (by decide)]; decide
  have e8 : runSchedule (List.replicate 1000 8)
        (8000, [0, 0, 0, 0, 0, 0, 0, 0, 1000, 1000])
      = (9000, [0, 0, 0, 0, 0, 0, 0, 0, 0, 1000]) := by
    rw [drain 8 1000 8000 _ (by decide)]; decide
  have e9 : runSchedule (List.replicate 1000 9)
        (9000, [0, 0, 0, 0, 0, 0, 0, 0, 0, 1000])
      = (10000, [0, 0, 0, 0, 0, 0, 0, 0, 0, 0]) := by
    rw [drain 9 1000 9000 _ (by decide)]; decide
  simp only [demoSchedule, runSchedule_append, hinit, e0, e1, e2, e3, e4, e5, e6, e7, e8, e9]
  decide

/-- C7 witness: along the concrete complete schedule `demoSchedule` the
counter finishes at exactly 10000. -/
theorem locked_counter_final_witness :
    (runSchedule demoSchedule initLockDemo).1 = 10000 :=
  locked_counter_final demoSchedule (by rw [lock_demo_run]; decide)

end Memo

namespace Memo

/-- A `CachedGadget` instance from `src/python/oop.py`: its `name` and
`feature` attributes (absent until `Gadget.__init__` runs, hence
`Option`) and the `_initialized` guard read back with
`getattr(self, "_initialized", False)`. -/
structure CachedGadgetObj where
  name : Option String
  feature : Option String
  initialized : Bool
deriving DecidableEq

/-- The run-wide state of the `CachedGadget` class: the allocated
instances (an instance is identified by its heap index) and the
class-level `_cache` mapping names to instances. -/
structure CGWorld where
  heap : List CachedGadgetObj
  cache : List (String × Nat)
deriving DecidableEq

/-- Lookup in the class-level `_cache` dict. -/
def cgCacheGet (cache : List (String × Nat)) (name : String) : Option Nat :=
  match cache with
  | [] => Option.none
  | (k, v) :: rest => if k = name then Option.some v else cgCacheGet rest name

/-- `CachedGadget.__new__`: reuse the cached instance for `name` when one
exists; otherwise allocate a fresh blank instance (no attributes set) and
record it in `_cache` before returning it. -/
def cgNew (w : CGWorld) (name : String) : Nat × CGWorld :=
  match cgCacheGet w.cache name with
  | Option.some i => (i, w)
  | Option.none =>
      (w.heap.length,
        { heap := w.heap ++
            [{ name := Option.none, feature := Option.none, initialized := false }],
          cache := w.cache ++ [(name, w.heap.length)] })

/-- `CachedGadget.__init__`: returns immediately when the `_initialized`
guard is set; otherwise runs `Gadget.__init__` (setting `name` and
`feature`) and sets the guard. -/
def cgInit (w : CGWorld) (i : Nat) (name feature : String) : CGWorld :=
  match w.heap[i]? with
  | Option.none => w
  | Option.some o =>
      if o.initialized then w
      else
        let newObj : CachedGadgetObj :=
          { name := Option.some name, feature := Option.some feature, initialized := true }
        { w with heap := w.heap.set i newObj }

/-- The constructor call `CachedGadget(name, feature)`: `__new__`
followed by `__init__` on the returned instance (Python invokes
`__init__` because the returned object is an instance of the class). -/
def cgConstruct (w : CGWorld) (name feature : String) : Nat × CGWorld :=
  let r := cgNew w name
  (r.1, cgInit r.2 r.1 name feature)

/-- The class state at the start of a run: nothing allocated or cached. -/
def emptyCGWorld : CGWorld := { heap := [], cache := [] }

/-- C8: within a run, constructing `CachedGadget` twice with the same
name yields the identical instance (the same heap index), leaves the
world unchanged (the second `__init__` is skipped by the `_initialized`
guard), and the instance keeps the first construction's `feature` — the
second `feature` argument is discarded. -/
theorem cachedGadget_reuse (n f1 f2 : String) :
    (cgConstruct (cgConstruct emptyCGWorld n f1).2 n f2).1
      = (cgConstruct emptyCGWorld n f1).1 ∧
    (cgConstruct (cgConstruct emptyCGWorld n f1).2 n f2).2
      = (cgConstruct emptyCGWorld n f1).2 ∧
    ((cgConstruct (cgConstruct emptyCGWorld n f1).2 n f2).2).heap[(cgConstruct emptyCGWorld n f1).1]?
      = Option.some { name := Option.some n, feature := Option.some f1, initialized := true } := by
  simp [cgConstruct, cgNew, cgInit, cgCacheGet, emptyCGWorld]

end Memo

namespace Memo

/-- A `CustomerRecord` from `src/python/oop/class5.py`: the mixin fields
`created_at`/`updated_at` (timestamps, embedded as `Option Nat`),
the soft-delete flag, and the record's name. -/
structure CustomerRecord where
  name : String
  created_at : Option Nat
  updated_at : Option Nat
  deleted : Bool
deriving DecidableEq

/-- `CustomerRecord.__init__(name)`: both mixin initialisers then the
name. -/
def CustomerRecord.mkNew (name : String) : CustomerRecord :=
  { name := name, created_at := Option.none, updated_at := Option.none, deleted := false }

/-- `TimestampMixin.touch` with `datetime.utcnow()` passed in as `now`:
sets `created_at` only when it is still `None`, and always sets
`updated_at`. -/
def touch (r : CustomerRecord) (now : Nat) : CustomerRecord :=
  let r1 := if r.created_at = Option.none then { r with created_at := Option.some now } else r
  { r1 with updated_at := Option.some now }

/-- `SoftDeleteMixin.delete`: sets the `deleted` flag. -/
def delete (r : CustomerRecord) : CustomerRecord := { r with deleted := true }

/-- C9: `touch` sets `created_at` only when it is `None` (so any later
call leaves it unchanged while updating `updated_at`), and `delete` sets
`deleted` to `True` while leaving `name`, `created_at` and `updated_at`
unchanged. -/
theorem customerRecord_touch_delete_frame (r : CustomerRecord) (n1 n2 : Nat) :
    (touch r n1).created_at = Option.some (r.created_at.getD n1) ∧
    (touch r n1).updated_at = Option.some n1 ∧
    (touch r n1).name = r.name ∧
    (touch (touch r n1) n2).created_at = (touch r n1).created_at ∧
    (touch (touch r n1) n2).updated_at = Option.some n2 ∧
    (delete r).deleted = true ∧
    (delete r).name = r.name ∧
    (delete r).created_at = r.created_at ∧
    (delete r).updated_at = r.updated_at := by
  cases h : r.created_at <;> simp [touch, delete, h, Option.getD]

end Memo

namespace Memo

/-- A `RichExample` from `src/python/oop/class2.py`: the `name`,
`_values` (a list of ints), `_extras` (the dynamic-attribute dict, whose
values are arbitrary Python values), and the `_active` context flag. -/
structure RichExample where
  name : String
  values : List Int
  extras : List (String × PyVal)
  active : Bool

/-- `RichExample.__init__(name, values)`. -/
def RichExample.mkNew (name : String) (values : List Int) : RichExample :=
  { name := name, values := values, extras := [], active := false }

/-- The dict returned by `__getstate__`, which always carries the three
keys `name`, `values` and `extras`; `Option` models `dict.get`'s view of
each key. -/
structure REState where
  name : Option String
  values : Option (List Int)
  extras : Option (List (String × PyVal))

/-- `__getstate__`: copies of the name, the values list and the extras
dict. -/
def RichExample.getstate (r : RichExample) : REState :=
  { name := Option.some r.name, values := Option.some r.values,
    extras := Option.some r.extras }

/-- `__setstate__`: overwrites every slot of the receiver from the state
dict with the source's `state.get` defaults and clears `_active`. -/
def RichExample.setstate (_r : RichExample) (st : REState) : RichExample :=
  { name := st.name.getD "unknown", values := st.values.getD [],
    extras := st.extras.getD [], active := false }

/-- `__eq__`: a `RichExample` equals another when the name and the values
list agree. -/
def RichExample.eq (a b : RichExample) : Bool :=
  a.name == b.name && a.values == b.values

/-- C10: for every `RichExample` `x`, applying `__setstate__` to a fresh
object with the dict returned by `x.__getstate__()` yields an object
equal to `x` under `__eq__` — the get/set state pair is a round trip up
to equality. -/
theorem richExample_state_roundtrip (fresh x : RichExample) :
    RichExample.eq (RichExample.setstate fresh (RichExample.getstate x)) x = true := by
  simp [RichExample.eq, RichExample.setstate, RichExample.getstate]

end Memo
